import Mathlib

/-!
Shallow embedding of `runtime/lib/stacktrace.cc` (Dart VM stack-trace capture
core) and verification of the specification's testable properties.

Modelling conventions:
- A thread's live frame stack is the list of frames the `StackFrameIterator`
  would yield, innermost first.
- `ASSERT(...)` is observable: a function whose assertion can fire returns
  `Option`, with `none` meaning the fatal invariant violation.
- Program-counter offsets are `Nat` (uword subtraction `pc - PayloadStart`
  truncates at zero like unsigned wrap would only for ill-formed frames;
  well-formed frames have `payloadStart ≤ pc`).
- The `StackTraceUtils::CountFrames / CollectFrames / CollectFramesLazy`
  helpers live in `runtime/vm/stack_trace.cc`, which is not part of this
  fragment; they are modelled from the spec (see their doc comments).
-/

set_option autoImplicit false

namespace StacktraceCC

/-- Opaque handle to a compiled-code blob (`Code`), carrying its identity and
the start address of its executable payload (`PayloadStart`). -/
structure Code where
  cid : Nat
  payloadStart : Nat
  deriving DecidableEq

/-- One live native call frame as yielded by the `StackFrameIterator`:
whether it is a Dart (managed) frame, the code it would resolve to via
`LookupDartCode`, and its saved program counter. -/
structure Frame where
  isDartFrame : Bool
  dartCode : Code
  pc : Nat
  deriving DecidableEq

/-- The immutable `StackTrace` object: a fixed-length code array paired with a
raw typed-data buffer of program-counter offsets. -/
structure StackTrace where
  code_array : List Code
  pc_offset_array : List Nat
  deriving DecidableEq

/-- Process-wide configuration flags read by this translation unit.
`FLAG_causal_async_stacks` is carried so that claims about causal-chain
behaviour can be stated; the code in this fragment reads only
`FLAG_lazy_async_stacks`. -/
structure Flags where
  FLAG_lazy_async_stacks : Bool
  FLAG_causal_async_stacks : Bool
  deriving DecidableEq

/-- Thread state visible to this translation unit: the live frames (innermost
first, as the iterator yields them) and the externally maintained causal
asynchronous stack chain, if any has been recorded. -/
structure Thread where
  frames : List Frame
  asyncStackTrace : Option StackTrace
  deriving DecidableEq

/-- Frames the walk classifies as managed (`frame->IsDartFrame()`). -/
def dartFrames (fs : List Frame) : List Frame :=
  fs.filter (fun f => f.isDartFrame)

/-- The (code reference, pc offset) pair a collector extracts from one managed
frame: `code = frame->LookupDartCode(); pc_offset = frame->pc() - code.PayloadStart()`. -/
def framePair (f : Frame) : Code × Nat :=
  (f.dartCode, f.pc - f.dartCode.payloadStart)

/-- All (code, offset) pairs of the managed frames of a thread, innermost
first. -/
def eligiblePairs (thread : Thread) : List (Code × Nat) :=
  (dartFrames thread.frames).map framePair

/-- Raw `memmove` of `len` machine words from `src` over the start of `dst`. -/
def memmoveWords (dst src : List Nat) (len : Nat) : List Nat :=
  src.take len ++ dst.drop len

/-- Events emitted by `CreateStackTraceObject`, used to state where the bulk
copy happens relative to the `NoSafepointScope`. -/
inductive BuildEvent where
  | makeFixedLength (n : Nat)
  | newTypedData (n : Nat)
  | enterNoSafepointScope
  | memmove (words : List Nat)
  | exitNoSafepointScope
  | newStackTrace
  deriving DecidableEq

/-- `CreateStackTraceObject`: materialize the growable code list into a fixed
array and bulk-copy the offsets into a fresh typed-data buffer of exactly
`pc_offset_list.length` words. -/
def CreateStackTraceObject (code_list : List Code) (pc_offset_list : List Nat) :
    StackTrace :=
  let code_array := code_list
  let pc_offset_array :=
    memmoveWords (List.replicate pc_offset_list.length 0) pc_offset_list
      pc_offset_list.length
  ⟨code_array, pc_offset_array⟩

/-- The ordered operations `CreateStackTraceObject` performs; the `memmove`
happens inside the `NoSafepointScope` block. -/
def CreateStackTraceObjectTrace (code_list : List Code)
    (pc_offset_list : List Nat) : List BuildEvent :=
  [ BuildEvent.makeFixedLength code_list.length,
    BuildEvent.newTypedData pc_offset_list.length,
    BuildEvent.enterNoSafepointScope,
    BuildEvent.memmove pc_offset_list,
    BuildEvent.exitNoSafepointScope,
    BuildEvent.newStackTrace ]

/-- Checks that every `memmove` event in a trace occurs at positive
no-safepoint nesting depth, i.e. inside a `NoSafepointScope`. -/
def memmoveGuarded : List BuildEvent → Nat → Bool
  | [], _ => true
  | BuildEvent.enterNoSafepointScope :: rest, depth => memmoveGuarded rest (depth + 1)
  | BuildEvent.exitNoSafepointScope :: rest, depth => memmoveGuarded rest (depth - 1)
  | BuildEvent.memmove _ :: rest, depth => decide (0 < depth) && memmoveGuarded rest depth
  | _ :: rest, depth => memmoveGuarded rest depth

/-- Modelled from the spec: `StackTraceUtils::CountFrames`
(`runtime/vm/stack_trace.cc`, outside this fragment). §4.1 Frame Counter:
a read-only traversal returning the number of eligible (managed) frames found
after skipping the first `skip_frames` such frames. -/
def CountFrames (thread : Thread) (skip_frames : Nat) : Nat :=
  ((dartFrames thread.frames).drop skip_frames).length

/-- Modelled from the spec: `StackTraceUtils::CollectFrames`
(`runtime/vm/stack_trace.cc`, outside this fragment). §4.3 fixed-capacity
Frame Collector: walks frames once, writing the (code, offset) pair of each
eligible frame beyond the skip count into the pre-allocated slots starting at
index 0, up to the pre-computed capacity `count`; the list returned is what
was written. -/
def CollectFrames (thread : Thread) (count skip_frames : Nat) :
    List (Code × Nat) :=
  ((eligiblePairs thread).drop skip_frames).take count

/-- Modelled from the spec: `StackTraceUtils::CollectFramesLazy`
(`runtime/vm/stack_trace.cc`, outside this fragment). §4.2 growable Frame
Collector: walks frames once, appending the (code, offset) pair of every
eligible frame beyond the skip count to growable buffers, innermost first. -/
def CollectFramesLazy (thread : Thread) (skip_frames : Nat) :
    List (Code × Nat) :=
  (eligiblePairs thread).drop skip_frames

/-- `CurrentSyncStackTraceLazy`: single-pass growable collection, then the
snapshot builder. -/
def CurrentSyncStackTraceLazy (thread : Thread) (skip_frames : Nat) :
    StackTrace :=
  let pairs := CollectFramesLazy thread skip_frames
  CreateStackTraceObject (pairs.map Prod.fst) (pairs.map Prod.snd)

/-- `CurrentSyncStackTrace`: count, allocate once, collect into the fixed
storage, and `ASSERT(collected_frames_count == stack_trace_length)` (`none`
models the assertion firing). -/
def CurrentSyncStackTrace (thread : Thread) (skip_frames : Nat) :
    Option StackTrace :=
  let stack_trace_length := CountFrames thread skip_frames
  let collected := CollectFrames thread stack_trace_length skip_frames
  if collected.length = stack_trace_length then
    some ⟨collected.map Prod.fst, collected.map Prod.snd⟩
  else
    none

/-- `CurrentStackTrace`: the capture strategy selector. Despite its comment
about `--causal-async-stacks`, the body only tests `FLAG_lazy_async_stacks`
and falls back to the eager synchronous capture. -/
def CurrentStackTrace (flags : Flags) (thread : Thread)
    (for_async_function : Bool) (skip_frames : Nat) : Option StackTrace :=
  if flags.FLAG_lazy_async_stacks then
    some (CurrentSyncStackTraceLazy thread skip_frames)
  else
    CurrentSyncStackTrace thread skip_frames

/-- `GetStackTraceForException`: selector with `for_async_function = false`
and skip count 0. -/
def GetStackTraceForException (flags : Flags) (thread : Thread) :
    Option StackTrace :=
  CurrentStackTrace flags thread false 0

/-- Native entry `StackTrace_current`: selector with `for_async_function =
false` and the default skip count 1. -/
def StackTrace_current (flags : Flags) (thread : Thread) : Option StackTrace :=
  CurrentStackTrace flags thread false 1

/-- The frame loop of `AppendFrames`: skip non-Dart frames, then skip
`skip_frames` Dart frames, then collect (code, offset) pairs of the remaining
Dart frames in walk order. -/
def AppendFramesLoop : List Frame → Nat → List (Code × Nat)
  | [], _ => []
  | frame :: rest, skip_frames =>
    if !frame.isDartFrame then
      AppendFramesLoop rest skip_frames
    else if 0 < skip_frames then
      AppendFramesLoop rest (skip_frames - 1)
    else
      framePair frame :: AppendFramesLoop rest skip_frames

/-- `AppendFrames`: `ASSERT(frame != NULL)` on the first frame the iterator
yields (modelled by `none` when the thread has no frames at all), then the
collection loop. -/
def AppendFrames (thread : Thread) (skip_frames : Nat) :
    Option (List (Code × Nat)) :=
  if thread.frames.isEmpty then none
  else some (AppendFramesLoop thread.frames skip_frames)

/-- `GetCurrentStackTrace`: the explicit capture primitive; walks the raw
iterator via `AppendFrames` and hands the buffers to the snapshot builder. -/
def GetCurrentStackTrace (thread : Thread) (skip_frames : Nat) :
    Option StackTrace :=
  (AppendFrames thread skip_frames).map (fun pairs =>
    CreateStackTraceObject (pairs.map Prod.fst) (pairs.map Prod.snd))

/-- `HasStack`: does the iterator yield any frame at all? -/
def HasStack (thread : Thread) : Bool :=
  !thread.frames.isEmpty

/-! Concrete inputs used by witnesses and counterexamples. -/

/-- A managed frame executing 4 bytes into code blob 1. -/
def frameA : Frame := ⟨true, ⟨1, 10⟩, 14⟩

/-- A non-managed frame (runtime trampoline). -/
def frameB : Frame := ⟨false, ⟨2, 0⟩, 3⟩

/-- A managed frame executing 9 bytes into code blob 3. -/
def frameC : Frame := ⟨true, ⟨3, 20⟩, 29⟩

/-- A managed frame executing 7 bytes into code blob 4. -/
def frameD : Frame := ⟨true, ⟨4, 100⟩, 107⟩

/-- A thread with three managed frames and one trampoline. -/
def sampleThread : Thread := ⟨[frameA, frameB, frameC, frameD], none⟩

/-- A thread with exactly three managed frames. -/
def threeDartThread : Thread := ⟨[frameA, frameC, frameD], none⟩

/-- A thread with no frames at all. -/
def emptyThread : Thread := ⟨[], none⟩

/-- A thread whose only frame is non-managed. -/
def stubOnlyThread : Thread := ⟨[frameB], none⟩

/-- A recorded causal asynchronous chain with one entry. -/
def chainTrace : StackTrace := ⟨[⟨99, 0⟩], [7]⟩

/-- A thread carrying a recorded causal chain but no live frames. -/
def causalThread : Thread := ⟨[], some chainTrace⟩

/-- Configuration with causal chains enabled and lazy collection disabled. -/
def causalFlags : Flags := ⟨false, true⟩

/-! Helper lemmas. -/

/-- The snapshot builder returns exactly the buffers it was given. -/
lemma createStackTraceObject_id (cl : List Code) (pl : List Nat) :
    CreateStackTraceObject cl pl = ⟨cl, pl⟩ := by
  simp [CreateStackTraceObject, memmoveWords, List.take_length,
    List.drop_eq_nil_of_le]

/-- Dropping skipped entries from the eligible pairs leaves exactly the frame
count's worth of entries. -/
lemma drop_eligible_length (t : Thread) (k : Nat) :
    ((eligiblePairs t).drop k).length = CountFrames t k := by
  simp only [eligiblePairs, CountFrames, List.length_drop, List.length_map]

/-- The fixed collector at the counted capacity collects all remaining
eligible pairs. -/
lemma collectFrames_at_count (t : Thread) (k : Nat) :
    CollectFrames t (CountFrames t k) k = (eligiblePairs t).drop k := by
  rw [CollectFrames, ← drop_eligible_length t k, List.take_length]

/-- Closed form of the eager two-pass capture. -/
lemma currentSyncStackTrace_eq (t : Thread) (k : Nat) :
    CurrentSyncStackTrace t k =
      some ⟨((eligiblePairs t).drop k).map Prod.fst,
            ((eligiblePairs t).drop k).map Prod.snd⟩ := by
  simp only [CurrentSyncStackTrace, collectFrames_at_count,
    drop_eligible_length, eq_self_iff_true, if_true]

/-- Closed form of the lazy single-pass capture. -/
lemma currentSyncStackTraceLazy_eq (t : Thread) (k : Nat) :
    CurrentSyncStackTraceLazy t k =
      ⟨((eligiblePairs t).drop k).map Prod.fst,
       ((eligiblePairs t).drop k).map Prod.snd⟩ := by
  simp [CurrentSyncStackTraceLazy, CollectFramesLazy, createStackTraceObject_id]

/-- The raw frame loop collects the eligible pairs past the skip count. -/
lemma appendFramesLoop_eq (fs : List Frame) :
    ∀ k, AppendFramesLoop fs k = ((dartFrames fs).map framePair).drop k := by
  induction fs with
  | nil => intro k; simp [AppendFramesLoop, dartFrames]
  | cons f rest ih =>
    intro k
    by_cases hd : f.isDartFrame = true
    · cases k with
      | zero => simp [AppendFramesLoop, dartFrames, hd, ih]
      | succ m => simpa [AppendFramesLoop, dartFrames, hd] using ih m
    · simp [AppendFramesLoop, dartFrames, hd, ih]

/-- A nonempty frame list is not `isEmpty`. -/
lemma frames_isEmpty_false {t : Thread} (h : t.frames ≠ []) :
    t.frames.isEmpty = false := by
  cases hf : t.frames with
  | nil => exact absurd hf h
  | cons a l => rfl

/-- Closed form of the explicit capture primitive on a nonempty stack. -/
lemma getCurrentStackTrace_eq (t : Thread) (k : Nat) (h : t.frames ≠ []) :
    GetCurrentStackTrace t k =
      some ⟨((eligiblePairs t).drop k).map Prod.fst,
            ((eligiblePairs t).drop k).map Prod.snd⟩ := by
  simp [GetCurrentStackTrace, AppendFrames, frames_isEmpty_false h,
    appendFramesLoop_eq, eligiblePairs, createStackTraceObject_id]

/-! Claim theorems. -/

/-- C1: for every thread stack and every skip count not exceeding the number
of managed frames, the eager two-pass strategy and the lazy single-pass
strategy produce identical snapshots (same length, same per-index
code/offset pairs). -/
theorem eager_lazy_agree (thread : Thread) (k : Nat)
    (_hk : k ≤ (dartFrames thread.frames).length) :
    CurrentSyncStackTrace thread k = some (CurrentSyncStackTraceLazy thread k) := by
  rw [currentSyncStackTrace_eq, currentSyncStackTraceLazy_eq]

theorem eager_lazy_agree_witness :
    1 ≤ (dartFrames sampleThread.frames).length ∧
    CurrentSyncStackTrace sampleThread 1 =
      some (CurrentSyncStackTraceLazy sampleThread 1) :=
  ⟨by decide, eager_lazy_agree sampleThread 1 (by decide)⟩

/-- C2: every capture yields equally long code and offset sequences, and the
eager path's length equals the frame counter's result for the same skip
count, so its collected-count assertion never fails (the capture always
returns a snapshot). -/
theorem capture_lengths_consistent (thread : Thread) (k : Nat) :
    ((CurrentSyncStackTraceLazy thread k).code_array.length =
      (CurrentSyncStackTraceLazy thread k).pc_offset_array.length) ∧
    ∃ tr, CurrentSyncStackTrace thread k = some tr ∧
      tr.code_array.length = tr.pc_offset_array.length ∧
      tr.code_array.length = CountFrames thread k := by
  refine ⟨?_, _, currentSyncStackTrace_eq thread k, ?_, ?_⟩
  · rw [currentSyncStackTraceLazy_eq]; simp
  · simp
  · simp only [List.length_map]
    exact drop_eligible_length thread k

/-- C3 (counterexample): with causal chains enabled and an exception-context
capture, the selector returns its own synchronous capture (here empty) and
does not defer to, or prepend onto, the thread's recorded causal chain. -/
theorem causal_deferral_refuted :
    causalFlags.FLAG_causal_async_stacks = true ∧
    causalThread.asyncStackTrace = some chainTrace ∧
    GetStackTraceForException causalFlags causalThread = some ⟨[], []⟩ ∧
    some (⟨[], []⟩ : StackTrace) ≠ some chainTrace := by decide

/-- C3 (amended): the selector's result depends only on the lazy flag, the
live frames, and the skip count; the causal flag, the exception/async call
context, and the recorded causal chain have no influence, and the chain is
never consulted. -/
theorem selector_ignores_causal_state (flags : Flags) (frames : List Frame)
    (chain : Option StackTrace) (for_async_function : Bool) (k : Nat) :
    CurrentStackTrace flags ⟨frames, chain⟩ for_async_function k =
      if flags.FLAG_lazy_async_stacks then
        some (CurrentSyncStackTraceLazy ⟨frames, none⟩ k)
      else CurrentSyncStackTrace ⟨frames, none⟩ k := rfl

/-- C4: the snapshot builder's offset buffer is a verbatim copy of the source
offsets, the code array is the materialized code list, and the bulk memmove
event occurs inside the no-safepoint scope of its operation trace. -/
theorem builder_verbatim_copy_guarded (code_list : List Code)
    (pc_offset_list : List Nat) :
    (CreateStackTraceObject code_list pc_offset_list).code_array = code_list ∧
    (CreateStackTraceObject code_list pc_offset_list).pc_offset_array =
      pc_offset_list ∧
    BuildEvent.memmove pc_offset_list ∈
      CreateStackTraceObjectTrace code_list pc_offset_list ∧
    memmoveGuarded (CreateStackTraceObjectTrace code_list pc_offset_list) 0 =
      true := by
  refine ⟨?_, ?_, ?_, ?_⟩
  · rw [createStackTraceObject_id]
  · rw [createStackTraceObject_id]
  · simp [CreateStackTraceObjectTrace]
  · rfl

/-- C5: the exception-context entry invokes the selector with skip count 0
and the public entry with skip count 1, and both follow the same
lazy-versus-eager selection policy. -/
theorem entry_skip_counts (flags : Flags) (thread : Thread) :
    GetStackTraceForException flags thread =
      (if flags.FLAG_lazy_async_stacks then
        some (CurrentSyncStackTraceLazy thread 0)
      else CurrentSyncStackTrace thread 0) ∧
    StackTrace_current flags thread =
      (if flags.FLAG_lazy_async_stacks then
        some (CurrentSyncStackTraceLazy thread 1)
      else CurrentSyncStackTrace thread 1) := ⟨rfl, rfl⟩

/-- C6 (counterexample): on a thread with no frames at all, a capture with
skip count 5 (greater than the 0 eligible frames) hits the explicit capture
primitive's entry assertion and fails instead of returning a 0-length
snapshot. -/
theorem skip_overshoot_empty_stack_refuted :
    (dartFrames emptyThread.frames).length < 5 ∧
    GetCurrentStackTrace emptyThread 5 = none := by decide

/-- C6 (amended): provided the thread has at least one frame of any kind (the
primitive's entry assertion), a capture whose skip count strictly exceeds the
number of eligible managed frames returns a successfully constructed
snapshot of length zero. -/
theorem skip_overshoot_empty_snapshot (thread : Thread) (k : Nat)
    (hne : thread.frames ≠ []) (hk : CountFrames thread 0 < k) :
    GetCurrentStackTrace thread k = some ⟨[], []⟩ := by
  rw [getCurrentStackTrace_eq thread k hne]
  have hlen : (eligiblePairs thread).length ≤ k := by
    simp only [eligiblePairs, CountFrames, List.drop_zero] at hk ⊢
    simpa using Nat.le_of_lt hk
  rw [List.drop_eq_nil_of_le hlen]
  simp

theorem skip_overshoot_empty_snapshot_witness :
    (threeDartThread.frames ≠ [] ∧ CountFrames threeDartThread 0 < 5) ∧
    GetCurrentStackTrace threeDartThread 5 = some ⟨[], []⟩ :=
  ⟨⟨by decide, by decide⟩,
    skip_overshoot_empty_snapshot threeDartThread 5 (by decide) (by decide)⟩

/-- C7: with at least one eligible frame remaining past skip count k, the
skip-(k+1) capture is exactly the skip-k capture with its innermost entry
removed, in both parallel sequences. -/
theorem skip_succ_drops_innermost (thread : Thread) (k : Nat)
    (hk : k < (dartFrames thread.frames).length) :
    ∃ tr₁ tr₂, GetCurrentStackTrace thread k = some tr₁ ∧
      GetCurrentStackTrace thread (k + 1) = some tr₂ ∧
      tr₂.code_array = tr₁.code_array.drop 1 ∧
      tr₂.pc_offset_array = tr₁.pc_offset_array.drop 1 := by
  have hne : thread.frames ≠ [] := by
    intro h
    rw [h] at hk
    simp [dartFrames] at hk
  refine ⟨_, _, getCurrentStackTrace_eq thread k hne,
    getCurrentStackTrace_eq thread (k + 1) hne, ?_, ?_⟩
  · simp [List.map_drop, List.drop_drop]
  · simp [List.map_drop, List.drop_drop]

theorem skip_succ_drops_innermost_witness :
    0 < (dartFrames sampleThread.frames).length ∧
    ∃ tr₁ tr₂, GetCurrentStackTrace sampleThread 0 = some tr₁ ∧
      GetCurrentStackTrace sampleThread (0 + 1) = some tr₂ ∧
      tr₂.code_array = tr₁.code_array.drop 1 ∧
      tr₂.pc_offset_array = tr₁.pc_offset_array.drop 1 :=
  ⟨by decide, skip_succ_drops_innermost sampleThread 0 (by decide)⟩

/-- C8: the liveness probe returns false exactly when the thread has no frame
of any kind; any frame at all, managed or not, makes it true. -/
theorem hasStack_false_iff_no_frames (thread : Thread) :
    HasStack thread = false ↔ thread.frames = [] := by
  simp [HasStack, List.isEmpty_iff]

/-- C9 (counterexample): on a thread whose only frame is non-managed, the raw
walk contains zero managed frames, yet the explicit capture primitive's
assertion does not fire — the assertion only checks that some frame of any
kind exists. -/
theorem append_frames_assert_refuted :
    stubOnlyThread.frames.any (fun f => f.isDartFrame) = false ∧
    AppendFrames stubOnlyThread 0 = some [] := by decide

/-- C9 (amended): the primitive asserts that at least one frame of any kind
exists; whenever the primitive runs within an active managed call (some
managed frame is on the stack), the assertion never fires and the capture
returns a snapshot. -/
theorem capture_succeeds_within_managed_call (thread : Thread) (k : Nat)
    (hm : thread.frames.any (fun f => f.isDartFrame) = true) :
    (AppendFrames thread k).isSome = true ∧
    ∃ tr, GetCurrentStackTrace thread k = some tr := by
  have hne : thread.frames ≠ [] := by
    intro h
    rw [h] at hm
    simp at hm
  constructor
  · simp [AppendFrames, frames_isEmpty_false hne]
  · exact ⟨_, getCurrentStackTrace_eq thread k hne⟩

theorem capture_succeeds_within_managed_call_witness :
    sampleThread.frames.any (fun f => f.isDartFrame) = true ∧
    ((AppendFrames sampleThread 0).isSome = true ∧
      ∃ tr, GetCurrentStackTrace sampleThread 0 = some tr) :=
  ⟨by decide, capture_succeeds_within_managed_call sampleThread 0 (by decide)⟩

/-- C10: the selector's `for_async_function` argument has no influence on the
result: for every configuration, thread state, and skip count, the two
argument values give identical results. -/
theorem for_async_function_no_influence (flags : Flags) (thread : Thread)
    (k : Nat) :
    CurrentStackTrace flags thread true k =
      CurrentStackTrace flags thread false k := rfl

end StacktraceCC
